import Mathlib

/-!
Verification of the CareerMate career-assistant program (`careermate.py`).

The three deterministic tools (`get_missing_skills`, `find_jobs`,
`recommend_courses`), their hardcoded datasets (`JOB_SKILLS`, `JOB_LISTINGS`,
`COURSES`), and the result dispatch in `main` are embedded shallowly below.
Python dictionaries become association lists (keys are unique in the data),
Python string lowering becomes an explicit ASCII `pyLower`, Python substring
containment (`a in b`) becomes `charsContain`, and Python truthiness of
strings/lists is modelled by explicit emptiness tests.  The intent-routing
state machine lives in the external agents SDK, not in the source file, so
it is modelled from the specification where a claim needs it.
-/

/-- ASCII lowering of one character, the behaviour of Python `str.lower` on the
ASCII data this program uses. -/
def pyLowerChar (c : Char) : Char :=
  if 'A' ≤ c ∧ c ≤ 'Z' then Char.ofNat (c.toNat + 32) else c

/-- Python `s.lower()` on ASCII strings. -/
def pyLower (s : String) : String :=
  ⟨s.data.map pyLowerChar⟩

/-- Does the second list start with the first one? -/
def charsBeginWith : List Char → List Char → Bool
  | [], _ => true
  | _ :: _, [] => false
  | a :: as, b :: bs => a == b && charsBeginWith as bs

/-- Python `needle in hay` on strings: contiguous-substring containment,
on explicit character lists. -/
def charsContain (needle : List Char) : List Char → Bool
  | [] => charsBeginWith needle []
  | c :: rest => charsBeginWith needle (c :: rest) || charsContain needle rest

/-- Case-insensitive substring test `needle.lower() in hay.lower()` used by
`find_jobs` for the location filter. -/
def pyInCI (needle hay : String) : Bool :=
  charsContain (pyLower needle).data (pyLower hay).data

/-- Python `dict.get` over an association list (first matching key wins; the
program's dictionary literals have unique keys). -/
def lookupD {β : Type} (l : List (String × β)) (k : String) : Option β :=
  match l with
  | [] => none
  | (k', v) :: rest => if k = k' then some v else lookupD rest k

/-- A job listing dictionary from `JOB_LISTINGS` (`title`, `company`,
`location`, `skills`). -/
structure Job where
  title : String
  company : String
  location : String
  skills : List String
deriving DecidableEq, Repr

/-- A course-recommendation dictionary / pydantic model (`skill`, `courses`). -/
structure CourseRecommendation where
  skill : String
  courses : List String
deriving DecidableEq, Repr

/-- The result of `get_missing_skills`: either the error dictionary
`{"error": msg}` or the dictionary with `target_job`, `missing_skills` and
`explanation` keys. -/
inductive SkillGapResult where
  | error (msg : String)
  | ok (target_job : String) (missing_skills : List String) (explanation : String)
deriving DecidableEq, Repr

/-- The `JOB_SKILLS` dictionary literal. -/
def JOB_SKILLS : List (String × List String) :=
  [("data scientist", ["Python", "SQL", "Statistics", "Machine Learning", "Pandas"]),
   ("web developer", ["HTML", "CSS", "JavaScript", "React", "Node.js"]),
   ("data analyst", ["Excel", "SQL", "Power BI", "Python", "Statistics"])]

/-- The `JOB_LISTINGS` list literal. -/
def JOB_LISTINGS : List Job :=
  [⟨"Junior Data Scientist", "TechCorp", "Remote", ["Python", "SQL"]⟩,
   ⟨"Web Developer", "WebWorld", "New York", ["JavaScript", "React"]⟩,
   ⟨"Data Analyst", "DataWorks", "San Francisco", ["Excel", "SQL", "Python"]⟩]

/-- The `COURSES` dictionary literal. -/
def COURSES : List (String × List String) :=
  [("SQL", ["SQL for Beginners (Coursera) - https://example.com/sql",
            "Learn SQL (Udemy) - https://example.com/sql2"]),
   ("Statistics", ["Intro to Statistics (Khan Academy) - https://example.com/stat"]),
   ("Pandas", ["Data Analysis with Pandas (YouTube) - https://example.com/pandas"]),
   ("Python", ["Python 101 (Codecademy) - https://example.com/py"]),
   ("React", ["React Crash Course (Ostad) - https://ostad.app/course/react-native-workshop"])]

/-- `get_missing_skills(user_skills, target_job)`: looks the lowercased target
job up in the job-skills dictionary; a missing key or a falsy (empty) skill
list yields the error dictionary; otherwise the required skills are filtered
to those not contained in `user_skills` (exact, case-sensitive membership),
in their original order. -/
def get_missing_skills (jobSkills : List (String × List String))
    (user_skills : List String) (target_job : String) : SkillGapResult :=
  match lookupD jobSkills (pyLower target_job) with
  | none => .error ("No data for job: " ++ target_job)
  | some required_skills =>
    if required_skills = [] then .error ("No data for job: " ++ target_job)
    else
      let missing := required_skills.filter (fun skill => decide (skill ∉ user_skills))
      .ok target_job missing
        ("To become a " ++ target_job ++ ", you need to learn: " ++
          String.intercalate ", " missing)

/-- The per-listing predicate of `find_jobs`: every required skill of the job
is in `user_skills`, and if a truthy location argument was supplied it must be
a case-insensitive substring of the job's location. -/
def jobPred (user_skills : List String) (location : Option String) (job : Job) : Bool :=
  job.skills.all (fun skill => decide (skill ∈ user_skills)) &&
  match location with
  | none => true
  | some loc => if loc = "" then true else pyInCI loc job.location

/-- `find_jobs(user_skills, location=None)`: keeps, in order, every listing
whose skills are all in `user_skills`, skipping (when `location` is truthy)
listings whose location does not contain it case-insensitively. -/
def find_jobs (listings : List Job) (user_skills : List String)
    (location : Option String) : List Job :=
  listings.filter (jobPred user_skills location)

/-- `recommend_courses(missing_skills)`: for each requested skill in input
order, emits the catalog entry when `COURSES.get(skill)` is truthy
(present and non-empty), and silently skips the skill otherwise. -/
def recommend_courses (catalog : List (String × List String))
    (missing_skills : List String) : List CourseRecommendation :=
  missing_skills.filterMap (fun skill =>
    match lookupD catalog skill with
    | none => none
    | some courses => if courses = [] then none else some ⟨skill, courses⟩)

/-- The missing-skills field of a successful `get_missing_skills` result. -/
def missingOf : SkillGapResult → Option (List String)
  | .ok _ missing_skills _ => some missing_skills
  | .error _ => none

/-- The pydantic `JobListing` model (`title`, `company`, `location`,
`requirements`), the per-element shape of the job-finder output. -/
structure JobListing where
  title : String
  company : String
  location : String
  requirements : List String
deriving DecidableEq, Repr

/-- An element of a Python list reaching `main`'s dispatch: a `JobListing`
model, a `CourseRecommendation` model, or any other Python value. -/
inductive PyItem where
  | jobListing (j : JobListing)
  | courseRec (c : CourseRecommendation)
  | otherItem
deriving DecidableEq, Repr

/-- A final-output value reaching the `isinstance` dispatch in `main`: a
`SkillGap` model, a Python list, or free-form text (any other value). -/
inductive OutputValue where
  | skillGap (target_job : String) (missing_skills : List String) (explanation : String)
  | pyList (items : List PyItem)
  | text (s : String)
deriving DecidableEq, Repr

/-- `isinstance(output, SkillGap)`. -/
def isSkillGapTest : OutputValue → Bool
  | .skillGap .. => true
  | _ => false

/-- `isinstance(output, list) and all(isinstance(job, JobListing) for job in output)`. -/
def isJobListTest : OutputValue → Bool
  | .pyList items => items.all fun i =>
      match i with
      | .jobListing _ => true
      | _ => false
  | _ => false

/-- `isinstance(output, list) and all(isinstance(c, CourseRecommendation) for c in output)`. -/
def isCourseListTest : OutputValue → Bool
  | .pyList items => items.all fun i =>
      match i with
      | .courseRec _ => true
      | _ => false
  | _ => false

/-- The four branches of `main`'s `if`/`elif`/`else` result dispatch. -/
inductive Branch where
  | skillGapBranch
  | jobsBranch
  | coursesBranch
  | elseBranch
deriving DecidableEq, Repr

/-- The `if`/`elif`/`elif`/`else` chain of `main`, in source order: the first
test that accepts the output value selects the branch. -/
def mainDispatch (v : OutputValue) : Branch :=
  if isSkillGapTest v then .skillGapBranch
  else if isJobListTest v then .jobsBranch
  else if isCourseListTest v then .coursesBranch
  else .elseBranch

/-- The structured result variants of the three specialists plus the
free-text `Unhandled` variant. -/
inductive StructuredResult where
  | skillGapR (r : SkillGapResult)
  | jobsR (l : List JobListing)
  | coursesR (l : List CourseRecommendation)
  | unhandled (text : String)
deriving DecidableEq, Repr

/-- Modelled from the spec: the per-query error taxonomy recovered at the
session boundary (spec section 7); the error-handling code itself lives in the
external agents SDK, not in the source file. -/
inductive SessionError where
  | argumentValidation
  | unknownTool
  | schemaViolation
deriving DecidableEq, Repr

/-- Modelled from the spec: the terminal states of the ConversationSession
state machine (spec section 4.5), which the external agents SDK implements. -/
inductive SessionOutcome where
  | Done (r : StructuredResult)
  | Failed (e : SessionError)
deriving DecidableEq, Repr

/-- The names of the three specialist agents registered as handoffs of the
`conversation_agent`. -/
def registeredHandlers : List String :=
  ["Skill Gap Specialist", "Job Finder Specialist", "Course Recommender Specialist"]

/-- Modelled from the spec: `IntentRouter.route` (spec section 4.2) — the
routing logic lives in the external agents SDK, not in the source file.  The
backend's classification names at most one handler; a name not among the
registered handlers fails closed to no selection. -/
def routeDecision (handlers : List String) (classified : Option String) : Option String :=
  match classified with
  | none => none
  | some n => if n ∈ handlers then some n else none

/-- Modelled from the spec: one query through the ConversationSession state
machine (spec section 4.5) — implemented by the external agents SDK, not
present in the source file.  No selection answers the query as free text
(`unhandled`); a selected handler is invoked and its result validated, where
`invoke` abstracts tool invocation plus output validation and reports the
per-query errors of spec section 7. -/
def runQuery (handlers : List String) (classified : Option String)
    (invoke : String → Except SessionError StructuredResult)
    (freeText : String) : SessionOutcome :=
  match routeDecision handlers classified with
  | none => .Done (.unhandled freeText)
  | some h =>
    match invoke h with
    | .ok r => .Done r
    | .error e => .Failed e

/-- Modelled from the spec: the handlers a query's run actually engages —
exactly the one the router selected, or none. -/
def invokedHandlers (handlers : List String) (classified : Option String) : List String :=
  match routeDecision handlers classified with
  | none => []
  | some h => [h]

/-- The mutable process state the tools can see: the three module-level
datasets. -/
structure ProcState where
  jobSkills : List (String × List String)
  jobListings : List Job
  courses : List (String × List String)
deriving DecidableEq, Repr

/-- An invocation of one of the three tools with its arguments. -/
inductive ToolCall where
  | missingSkills (user_skills : List String) (target_job : String)
  | findJobsCall (user_skills : List String) (location : Option String)
  | recommendCoursesCall (missing_skills : List String)
deriving DecidableEq, Repr

/-- The value returned by a tool invocation. -/
inductive ToolResult where
  | skillGapRes (r : SkillGapResult)
  | jobsRes (l : List Job)
  | coursesRes (l : List CourseRecommendation)
deriving DecidableEq, Repr

/-- One tool invocation as a state transformer over the module-level
datasets: each tool body only reads `JOB_SKILLS` / `JOB_LISTINGS` / `COURSES`
(the Python functions contain no assignment to or mutation of them), so the
outgoing state is the incoming one. -/
def invokeTool (st : ProcState) : ToolCall → ToolResult × ProcState
  | .missingSkills user_skills target_job =>
      (.skillGapRes (get_missing_skills st.jobSkills user_skills target_job), st)
  | .findJobsCall user_skills location =>
      (.jobsRes (find_jobs st.jobListings user_skills location), st)
  | .recommendCoursesCall missing_skills =>
      (.coursesRes (recommend_courses st.courses missing_skills), st)

/-- A successful `lookupD` finds an actual entry of the association list. -/
theorem lookupD_mem {β : Type} {l : List (String × β)} {k : String} {v : β}
    (h : lookupD l k = some v) : (k, v) ∈ l := by
  induction l with
  | nil => simp [lookupD] at h
  | cons p rest ih =>
    obtain ⟨k', v'⟩ := p
    by_cases hk : k = k'
    · rw [lookupD, if_pos hk] at h
      injection h with hv
      rw [hk, hv]
      exact List.mem_cons_self _ _
    · rw [lookupD, if_neg hk] at h
      exact List.mem_cons_of_mem _ (ih h)

/-- Every job in the `JOB_SKILLS` dictionary has a non-empty skill list, so
the Python truthiness test on the looked-up value only fires for missing
keys. -/
theorem jobskills_values_nonempty : ∀ p ∈ JOB_SKILLS, p.2 ≠ [] := by decide

/-- Every skill in the `COURSES` dictionary has a non-empty course list, so
the Python truthiness test on `COURSES.get(skill)` only fires for missing
keys. -/
theorem courses_values_nonempty : ∀ p ∈ COURSES, p.2 ≠ [] := by decide

/-- The empty needle is contained in every character list, matching the
Python convention that the empty string is a substring of every string. -/
theorem charsContain_nil (hay : List Char) : charsContain [] hay = true := by
  cases hay <;> simp [charsContain, charsBeginWith]

/-- `"" in s` is true for every string `s`. -/
theorem pyInCI_empty (hay : String) : pyInCI "" hay = true := by
  have h : (pyLower "").data = [] := rfl
  rw [pyInCI, h]
  exact charsContain_nil _

/-- The `find_jobs` per-listing test, as a proposition: all required skills
present, and any supplied location a case-insensitive substring of the job's
location (the supplied empty string passes both the code's truthiness skip
and the substring reading). -/
theorem jobPred_iff (user_skills : List String) (location : Option String) (job : Job) :
    jobPred user_skills location job = true ↔
      ((∀ skill ∈ job.skills, skill ∈ user_skills) ∧
        ∀ loc, location = some loc → pyInCI loc job.location = true) := by
  unfold jobPred
  cases location with
  | none => simp [List.all_eq_true]
  | some l =>
    by_cases hl : l = ""
    · subst hl
      simp [List.all_eq_true, pyInCI_empty]
    · simp [hl, List.all_eq_true]

/-- Membership in the output of `find_jobs`, characterised. -/
theorem mem_find_jobs (listings : List Job) (user_skills : List String)
    (location : Option String) (job : Job) :
    job ∈ find_jobs listings user_skills location ↔
      (job ∈ listings ∧ (∀ skill ∈ job.skills, skill ∈ user_skills) ∧
        ∀ loc, location = some loc → pyInCI loc job.location = true) := by
  rw [find_jobs, List.mem_filter, jobPred_iff]

/-- On a known job with a non-empty skill list, `get_missing_skills` takes
the successful branch. -/
theorem get_missing_skills_known (jobSkills : List (String × List String))
    (user_skills : List String) (target_job : String) (required : List String)
    (h : lookupD jobSkills (pyLower target_job) = some required) (hne : required ≠ []) :
    get_missing_skills jobSkills user_skills target_job =
      .ok target_job (required.filter (fun skill => decide (skill ∉ user_skills)))
        ("To become a " ++ target_job ++ ", you need to learn: " ++
          String.intercalate ", " (required.filter (fun skill => decide (skill ∉ user_skills)))) := by
  unfold get_missing_skills
  rw [h]
  simp [hne]

/-- Over a catalog with non-empty course lists, the skills of the
recommendations are exactly the requested skills found in the catalog, in
request order. -/
theorem recommend_courses_skills (catalog : List (String × List String))
    (hcat : ∀ p ∈ catalog, p.2 ≠ []) (missing_skills : List String) :
    (recommend_courses catalog missing_skills).map CourseRecommendation.skill
      = missing_skills.filter (fun skill => (lookupD catalog skill).isSome) := by
  induction missing_skills with
  | nil => rfl
  | cons s rest ih =>
    simp only [recommend_courses] at ih ⊢
    rw [List.filterMap_cons]
    cases hl : lookupD catalog s with
    | none => simp [hl, List.filter_cons, ih]
    | some cs =>
      have hcs : cs ≠ [] := hcat (s, cs) (lookupD_mem hl)
      simp [hl, hcs, List.filter_cons, ih]

/-- Every emitted recommendation carries exactly the catalog entry of its
skill. -/
theorem recommend_courses_entries (catalog : List (String × List String))
    (missing_skills : List String) :
    ∀ r ∈ recommend_courses catalog missing_skills,
      lookupD catalog r.skill = some r.courses := by
  intro r hr
  rw [recommend_courses, List.mem_filterMap] at hr
  obtain ⟨s, _, hf⟩ := hr
  cases hl : lookupD catalog s with
  | none => simp [hl] at hf
  | some cs =>
    by_cases hcs : cs = []
    · simp [hl, hcs] at hf
    · simp only [hl, if_neg hcs, Option.some.injEq] at hf
      rw [← hf]
      exact hl

/-- C1: for every target job whose skill set is known and every list of
caller skills, `get_missing_skills` succeeds with `missing_skills` equal to
the job's required-skill sequence filtered to exclude every skill present in
the caller's skills (preserving the required order), and `missing_skills` is
empty iff the caller's skills are a superset of the requirements. -/
theorem get_missing_skills_spec (user_skills : List String) (target_job : String)
    (required : List String)
    (h : lookupD JOB_SKILLS (pyLower target_job) = some required) :
    missingOf (get_missing_skills JOB_SKILLS user_skills target_job)
        = some (required.filter (fun skill => decide (skill ∉ user_skills)))
      ∧ (missingOf (get_missing_skills JOB_SKILLS user_skills target_job) = some []
          ↔ ∀ skill ∈ required, skill ∈ user_skills) := by
  have hne : required ≠ [] :=
    jobskills_values_nonempty (pyLower target_job, required) (lookupD_mem h)
  rw [get_missing_skills_known JOB_SKILLS user_skills target_job required h hne]
  constructor
  · rfl
  · simp only [missingOf, Option.some.injEq]
    rw [List.filter_eq_nil_iff]
    simp

/-- Witness for C1 at the "data scientist" role with caller skills
`["Python", "SQL"]`. -/
theorem get_missing_skills_spec_witness :
    missingOf (get_missing_skills JOB_SKILLS ["Python", "SQL"] "data scientist")
        = some ((["Python", "SQL", "Statistics", "Machine Learning", "Pandas"]).filter
            (fun skill => decide (skill ∉ ["Python", "SQL"])))
      ∧ (missingOf (get_missing_skills JOB_SKILLS ["Python", "SQL"] "data scientist") = some []
          ↔ ∀ skill ∈ ["Python", "SQL", "Statistics", "Machine Learning", "Pandas"],
              skill ∈ ["Python", "SQL"]) :=
  get_missing_skills_spec ["Python", "SQL"] "data scientist"
    ["Python", "SQL", "Statistics", "Machine Learning", "Pandas"] (by decide)

/-- C2: `find_jobs` returns a listing iff every one of that listing's
required skills is present in the caller's skills and, when a location is
given, the given location is a case-insensitive substring of the listing's
location. -/
theorem find_jobs_spec (user_skills : List String) (location : Option String) (job : Job) :
    job ∈ find_jobs JOB_LISTINGS user_skills location ↔
      (job ∈ JOB_LISTINGS ∧ (∀ skill ∈ job.skills, skill ∈ user_skills) ∧
        ∀ loc, location = some loc → pyInCI loc job.location = true) :=
  mem_find_jobs JOB_LISTINGS user_skills location job

/-- Witness for C2: the TechCorp listing matches caller skills
`["Python", "SQL"]` under location filter "rem". -/
theorem find_jobs_spec_witness :
    (⟨"Junior Data Scientist", "TechCorp", "Remote", ["Python", "SQL"]⟩ : Job) ∈ JOB_LISTINGS
      ∧ (∀ skill ∈ (⟨"Junior Data Scientist", "TechCorp", "Remote", ["Python", "SQL"]⟩ : Job).skills,
          skill ∈ ["Python", "SQL"])
      ∧ ∀ loc, (some "rem" : Option String) = some loc →
          pyInCI loc (⟨"Junior Data Scientist", "TechCorp", "Remote", ["Python", "SQL"]⟩ : Job).location = true :=
  (find_jobs_spec ["Python", "SQL"] (some "rem")
    ⟨"Junior Data Scientist", "TechCorp", "Remote", ["Python", "SQL"]⟩).mp (by decide)

/-- C3: the skills of `recommend_courses`' output are exactly the requested
skills present in the catalog, in request order; every emitted entry carries
its catalog courses; a requested skill produces an entry iff it is requested
and present in the catalog (absent skills produce no entry and no error —
the function is total). -/
theorem recommend_courses_spec (missing_skills : List String) :
    ((recommend_courses COURSES missing_skills).map CourseRecommendation.skill
        = missing_skills.filter (fun skill => (lookupD COURSES skill).isSome))
      ∧ (∀ r ∈ recommend_courses COURSES missing_skills,
          lookupD COURSES r.skill = some r.courses)
      ∧ (∀ skill, (∃ r ∈ recommend_courses COURSES missing_skills, r.skill = skill)
          ↔ (skill ∈ missing_skills ∧ (lookupD COURSES skill).isSome = true)) := by
  have h1 := recommend_courses_skills COURSES courses_values_nonempty missing_skills
  refine ⟨h1, recommend_courses_entries COURSES missing_skills, ?_⟩
  intro skill
  constructor
  · rintro ⟨r, hr, rfl⟩
    have hm : r.skill ∈ (recommend_courses COURSES missing_skills).map CourseRecommendation.skill :=
      List.mem_map_of_mem _ hr
    rw [h1] at hm
    exact List.mem_filter.mp hm
  · rintro ⟨hmem, hsome⟩
    have hm : skill ∈ missing_skills.filter (fun s => (lookupD COURSES s).isSome) :=
      List.mem_filter.mpr ⟨hmem, hsome⟩
    rw [← h1] at hm
    obtain ⟨r, hr, hskill⟩ := List.mem_map.mp hm
    exact ⟨r, hr, hskill⟩

/-- Witness for C3 at the request `["React", "Basket Weaving", "Pandas"]`
(the middle skill has no catalog entry and is silently skipped). -/
theorem recommend_courses_spec_witness :
    (recommend_courses COURSES ["React", "Basket Weaving", "Pandas"]).map
        CourseRecommendation.skill
      = ["React", "Basket Weaving", "Pandas"].filter
          (fun skill => (lookupD COURSES skill).isSome) :=
  (recommend_courses_spec ["React", "Basket Weaving", "Pandas"]).1

/-- C4: `find_jobs` is monotone in the caller's skills — every listing
returned for the original skill list is still returned after appending an
additional skill. -/
theorem find_jobs_monotone (user_skills : List String) (location : Option String)
    (extra : String) (job : Job)
    (h : job ∈ find_jobs JOB_LISTINGS user_skills location) :
    job ∈ find_jobs JOB_LISTINGS (user_skills ++ [extra]) location := by
  rw [mem_find_jobs] at h ⊢
  obtain ⟨h1, h2, h3⟩ := h
  exact ⟨h1, fun s hs => List.mem_append_left _ (h2 s hs), h3⟩

/-- Witness for C4: the TechCorp listing stays matched after appending the
unrelated skill "Basket Weaving". -/
theorem find_jobs_monotone_witness :
    (⟨"Junior Data Scientist", "TechCorp", "Remote", ["Python", "SQL"]⟩ : Job)
      ∈ find_jobs JOB_LISTINGS (["Python", "SQL"] ++ ["Basket Weaving"]) none :=
  find_jobs_monotone ["Python", "SQL"] none "Basket Weaving"
    ⟨"Junior Data Scientist", "TechCorp", "Remote", ["Python", "SQL"]⟩ (by decide)

/-- C5: when the backend's classification names a handler that is not among
the registered specialist handlers, the router treats it as no selection: the
session reaches Done with the Unhandled variant — never Failed — and no
handler is invoked. -/
theorem unresolved_handoff_unhandled (n freeText : String)
    (invoke : String → Except SessionError StructuredResult)
    (h : n ∉ registeredHandlers) :
    runQuery registeredHandlers (some n) invoke freeText
        = SessionOutcome.Done (StructuredResult.unhandled freeText)
      ∧ invokedHandlers registeredHandlers (some n) = [] := by
  constructor <;> simp [runQuery, invokedHandlers, routeDecision, h]

/-- Witness for C5: the out-of-band name "Resume Specialist" with a backend
whose invocation would fail is still answered as Unhandled. -/
theorem unresolved_handoff_unhandled_witness :
    runQuery registeredHandlers (some "Resume Specialist")
        (fun _ => .error SessionError.unknownTool) "I am not sure how to help with that."
        = SessionOutcome.Done (StructuredResult.unhandled "I am not sure how to help with that.")
      ∧ invokedHandlers registeredHandlers (some "Resume Specialist") = [] :=
  unresolved_handoff_unhandled "Resume Specialist" "I am not sure how to help with that."
    (fun _ => .error SessionError.unknownTool) (by decide)

/-- C6 counterexample: the empty Python list satisfies the classification
tests of both list variants of `main`'s dispatch (`all` over an empty list is
true for both `JobListing` and `CourseRecommendation`), so it is false that
no result value satisfies the classification test of more than one variant. -/
theorem variant_tests_overlap_on_empty_list :
    isJobListTest (OutputValue.pyList []) = true
      ∧ isCourseListTest (OutputValue.pyList []) = true := by decide

/-- C6 (amended): `main`'s if/elif chain takes exactly one branch per result
(it is a total function, first test wins); the skill-gap test never overlaps
with either list test, the two list tests overlap only on the empty list, and
the chain dispatches the empty list to the job-listings branch by precedence. -/
theorem main_dispatch_amended (v : OutputValue) :
    (isSkillGapTest v && isJobListTest v) = false
      ∧ (isSkillGapTest v && isCourseListTest v) = false
      ∧ ((isJobListTest v && isCourseListTest v) = true → v = OutputValue.pyList [])
      ∧ mainDispatch (OutputValue.pyList []) = Branch.jobsBranch := by
  refine ⟨?_, ?_, ?_, by decide⟩
  · cases v <;> rfl
  · cases v <;> rfl
  · intro hc
    rw [Bool.and_eq_true] at hc
    obtain ⟨hj, hcs⟩ := hc
    cases v with
    | skillGap t m e => simp [isJobListTest] at hj
    | text s => simp [isJobListTest] at hj
    | pyList items =>
      cases items with
      | nil => rfl
      | cons i rest =>
        cases i with
        | jobListing j => simp [isCourseListTest] at hcs
        | courseRec c => simp [isJobListTest] at hj
        | otherItem => simp [isJobListTest] at hj

/-- Witness for C6 at concrete values: free text satisfies no pair of tests,
and the overlap case is exactly the empty list. -/
theorem main_dispatch_amended_witness :
    (isSkillGapTest (OutputValue.text "hello") && isJobListTest (OutputValue.text "hello")) = false
      ∧ OutputValue.pyList [] = OutputValue.pyList [] :=
  ⟨(main_dispatch_amended (OutputValue.text "hello")).1,
   (main_dispatch_amended (OutputValue.pyList [])).2.2.1 (by decide)⟩

/-- C7: `main`'s dispatch sends a specialist-failure value to the same `else`
branch as an Unhandled free-text answer — there is no typed failure branch,
so "a specialist applied but failed" and "no specialist applied" are
conflated by the caller. -/
theorem specialist_failure_conflated :
    mainDispatch (OutputValue.text "Tool invocation failed: ArgumentValidationError")
        = Branch.elseBranch
      ∧ mainDispatch (OutputValue.text "Sorry, I could not route your request.")
        = Branch.elseBranch := by decide

/-- C8: invoking any of the three tools with any arguments leaves the
job-skill mapping, the job listings and the course catalog unchanged — the
tool bodies only read the datasets, so the outgoing process state equals the
incoming one. -/
theorem invokeTool_frame (st : ProcState) (call : ToolCall) :
    (invokeTool st call).2 = st := by
  cases call <;> rfl

/-- C9: the target-job lookup of `get_missing_skills` is case-insensitive
(equal lowered titles give equal missing-skill lists for any caller skills),
while the skill comparison is case-sensitive exact membership (a required
skill not literally present in the caller's skills stays missing, whatever
case-variants of it the caller lists). -/
theorem skill_gap_case_sensitivity :
    (∀ (t₁ t₂ : String) (user_skills : List String), pyLower t₁ = pyLower t₂ →
        missingOf (get_missing_skills JOB_SKILLS user_skills t₁)
          = missingOf (get_missing_skills JOB_SKILLS user_skills t₂))
      ∧ (∀ (target_job : String) (user_skills required : List String) (r : String),
          lookupD JOB_SKILLS (pyLower target_job) = some required →
          r ∈ required → r ∉ user_skills →
          ∃ m, missingOf (get_missing_skills JOB_SKILLS user_skills target_job) = some m
            ∧ r ∈ m) := by
  constructor
  · intro t₁ t₂ user_skills h
    cases hl : lookupD JOB_SKILLS (pyLower t₂) with
    | none => simp [get_missing_skills, h, hl, missingOf]
    | some req =>
      by_cases hreq : req = []
      · simp [get_missing_skills, h, hl, hreq, missingOf]
      · simp [get_missing_skills, h, hl, hreq, missingOf]
  · intro target_job user_skills required r hl hr hru
    have hne : required ≠ [] := by
      intro hc
      rw [hc] at hr
      exact absurd hr (List.not_mem_nil r)
    rw [get_missing_skills_known JOB_SKILLS user_skills target_job required hl hne]
    refine ⟨required.filter (fun skill => decide (skill ∉ user_skills)), rfl, ?_⟩
    rw [List.mem_filter]
    refine ⟨hr, ?_⟩
    simp only [decide_eq_true_eq]
    exact hru

/-- Witness for C9: "Data Scientist" and "data scientist" give the same
missing skills, and listing only the case-variant "python" does not remove
the required "Python". -/
theorem skill_gap_case_sensitivity_witness :
    missingOf (get_missing_skills JOB_SKILLS ["python"] "Data Scientist")
        = missingOf (get_missing_skills JOB_SKILLS ["python"] "data scientist")
      ∧ ∃ m, missingOf (get_missing_skills JOB_SKILLS ["python"] "data scientist") = some m
          ∧ "Python" ∈ m :=
  ⟨skill_gap_case_sensitivity.1 "Data Scientist" "data scientist" ["python"] (by decide),
   skill_gap_case_sensitivity.2 "data scientist" ["python"]
     ["Python", "SQL", "Statistics", "Machine Learning", "Pandas"] "Python"
     (by decide) (by decide) (by decide)⟩

/-- C10: a target job whose lowered title is not in the job-skills dictionary
makes `get_missing_skills` return the error dictionary (carrying only the
message), not a result with target/missing/explanation fields. -/
theorem unknown_job_error_result (user_skills : List String) (target_job : String)
    (h : lookupD JOB_SKILLS (pyLower target_job) = none) :
    get_missing_skills JOB_SKILLS user_skills target_job
      = SkillGapResult.error ("No data for job: " ++ target_job) := by
  simp [get_missing_skills, h]

/-- Witness for C10 at the unknown role "astronaut". -/
theorem unknown_job_error_result_witness :
    get_missing_skills JOB_SKILLS ["Python"] "astronaut"
      = SkillGapResult.error ("No data for job: " ++ "astronaut") :=
  unknown_job_error_result ["Python"] "astronaut" (by decide)

